import Mathlib

/-!
Verification of the `clientpi` telemetry agent against its specification.

The development shallowly embeds the Python sources:
  * `src/sensor_reader.py` — `SensorReading`, `SensorReader.validate_reading`,
    the concrete reader variants (`DHT11Reader`, `DS18B20Reader`,
    `MockSensorReader`) and `SensorManager.read_all`;
  * `src/mqtt_client.py` — `MQTTClient` connection state, the publish helpers,
    the disconnect callback and the reconnect/backoff logic;
  * `src/main.py` — the poll-and-publish decision of `IoTSensorClient._main_loop`.

Numeric sensor values (Python floats) are modelled as rationals; `round(x, n)`
is modelled by rounding `x * 10^n` to the nearest integer.  No property below
depends on the value produced by rounding, only on which option fields are
present, so the half-even/half-up difference between Python's `round` and
Mathlib's `round` is immaterial.  Timestamps and log output are not modelled:
no claim mentions them.  Randomness (`random.uniform`, the 5% injected error
rate) is modelled by passing each drawn value, and the error-injection
decision, as explicit inputs to `read`.
-/

namespace ClientPi

/-- One decimal place rounding, modelling Python `round(x, 1)`. -/
def round1 (q : Rat) : Rat := (round (q * 10) : Int) / 10

/-- Two decimal place rounding, modelling Python `round(x, 2)`. -/
def round2 (q : Rat) : Rat := (round (q * 100) : Int) / 100

/-- Embedding of the `SensorReading` dataclass (`src/sensor_reader.py`,
lines 30-63).  The `timestamp` field is omitted: it is wall-clock time and no
claim refers to it. -/
structure SensorReading where
  temperature : Option Rat := none
  humidity : Option Rat := none
  pressure : Option Rat := none
  sensor_id : String := ""
  sensor_type : String := ""
  error : Option String := none
deriving Repr, DecidableEq

/-- Embedding of `SensorReading.is_valid` (`src/sensor_reader.py`,
lines 57-63): error absent and at least one measurement present. -/
def SensorReading.is_valid (r : SensorReading) : Bool :=
  r.error.isNone &&
    (r.temperature.isSome || r.humidity.isSome || r.pressure.isSome)

/-- Min/max bounds for one numeric field of a reading, modelling one entry of
the `SENSOR_RANGES` table (a Python dict which may omit either bound). -/
structure FieldRange where
  min : Option Rat := none
  max : Option Rat := none
deriving Repr, DecidableEq

/-- Ranges for the three numeric fields of a reading, modelling
`SENSOR_RANGES[sensor_type]`; a field missing from the dict is the empty
range. -/
structure SensorRanges where
  temperature : FieldRange := {}
  humidity : FieldRange := {}
  pressure : FieldRange := {}
deriving Repr, DecidableEq

/-- Embedding of one field check inside `SensorReader.validate_reading`
(`src/sensor_reader.py`, lines 91-110): a present value below a configured
`min` or above a configured `max` fails; an absent value always passes. -/
def checkField (v : Option Rat) (rng : FieldRange) : Bool :=
  match v with
  | none => true
  | some x =>
    (match rng.min with
     | none => true
     | some m => !(decide (x < m))) &&
    (match rng.max with
     | none => true
     | some M => !(decide (x > M)))

/-- Embedding of `SensorReader.validate_reading` (`src/sensor_reader.py`,
lines 82-116).  The `shared.constants` module is not part of the sources, so
the `SensorType` enumeration and the `SENSOR_RANGES` table are parameters:
`parse` models the `SensorType(self.sensor_type)` constructor (`none` models
the `ValueError` it raises on an unknown tag, which the surrounding
`try/except` turns into `return False`), and `table` models
`SENSOR_RANGES.get(sensor_type, {})` with absent entries folded into the
all-empty range record. -/
def validate_reading {SType : Type} (parse : String → Option SType)
    (table : SType → SensorRanges) (sensor_type : String)
    (r : SensorReading) : Bool :=
  if !r.is_valid then false
  else
    match parse sensor_type with
    | none => false
    | some st =>
      let ranges := table st
      checkField r.temperature ranges.temperature &&
      checkField r.humidity ranges.humidity &&
      checkField r.pressure ranges.pressure

/-- Spec-level predicate used to state C6: some present numeric field of `r`
lies outside the min/max bounds configured for the sensor type. -/
def somePresentFieldOut (ranges : SensorRanges) (r : SensorReading) : Bool :=
  !(checkField r.temperature ranges.temperature &&
    checkField r.humidity ranges.humidity &&
    checkField r.pressure ranges.pressure)

/-- Modelled from the spec: the `SensorType` enumeration of the missing
`shared/constants.py`, with the member tags the spec and the sources name
(DHT11, DHT22, DS18B20). -/
inductive SensorType where
  | DHT11
  | DHT22
  | DS18B20
deriving Repr, DecidableEq

/-- Modelled from the spec: the constructor `SensorType(tag)` of the missing
`shared/constants.py`, returning `none` where Python raises `ValueError`. -/
def SensorType.parse : String → Option SensorType
  | "DHT11" => some SensorType.DHT11
  | "DHT22" => some SensorType.DHT22
  | "DS18B20" => some SensorType.DS18B20
  | _ => none

/-- Modelled from the spec: the `SENSOR_RANGES` table of the missing
`shared/constants.py`.  The spec only pins the DHT11 temperature maximum
("expected max ~50", with `temperature=150` rejected and `22.0` accepted);
plausible DHT-datasheet bounds fill the rest. -/
def specSensorRanges : SensorType → SensorRanges
  | SensorType.DHT11 =>
    { temperature := { min := some 0, max := some 50 }
      humidity := { min := some 20, max := some 90 } }
  | SensorType.DHT22 =>
    { temperature := { min := some (-40), max := some 80 }
      humidity := { min := some 0, max := some 100 } }
  | SensorType.DS18B20 =>
    { temperature := { min := some (-55), max := some 125 } }

/-!
Embedding of `MQTTClient` (`src/mqtt_client.py`).  The mutable connection
state of the object is a record; each method is a function from that record
(plus the outcomes of the external transport calls it makes, passed as
explicit inputs) to its return value, the updated record, and the list of
observable effects it performs on the transport (connect/reconnect
submissions, payload submissions, backoff sleeps).
-/

/-- Logical publish channels of the client, standing for the templated
`MQTT_TOPICS[...]` strings (the concrete templates live in the missing
`shared/constants.py`; only channel identity matters to the claims). -/
inductive Channel where
  | sensor_data
  | sensor_status
  | heartbeat
  | debug
  | config
deriving Repr, DecidableEq

/-- Observable transport-level effect of an `MQTTClient` method. -/
inductive MQTTAction where
  | sleep (seconds : Nat)
  | reconnectCall
  | connectCall
  | disconnectCall
  | publishMsg (ch : Channel)
  | subscribeCall (ch : Channel)
deriving Repr, DecidableEq

/-- Mutable state of an `MQTTClient` instance (`src/mqtt_client.py`,
lines 27-53).  `hasClient` models `self.client is not None` (false when the
MQTT library failed to import), `stop_event` models `self._stop_event`
being set. -/
structure MQTTState where
  hasClient : Bool
  connected : Bool
  reconnect_attempts : Nat
  max_reconnect_attempts : Nat
  stop_event : Bool
deriving Repr, DecidableEq

/-- State of a freshly constructed `MQTTClient` (`src/mqtt_client.py`,
lines 27-53): not connected, zero reconnect attempts, stop event clear, and a
transport object exactly when the MQTT library imported. -/
def MQTTState.init (hasMqttLib : Bool) (maxAttempts : Nat) : MQTTState :=
  { hasClient := hasMqttLib
    connected := false
    reconnect_attempts := 0
    max_reconnect_attempts := maxAttempts
    stop_event := false }

/-- Relevant part of the dict returned by `MQTTClient.get_status`
(`src/mqtt_client.py`, lines 347-355); the `client_id`/broker-endpoint
entries are constants of the instance and are omitted. -/
structure MQTTStatus where
  connected : Bool
  reconnect_attempts : Nat
deriving Repr, DecidableEq

/-- Embedding of `MQTTClient.get_status` (`src/mqtt_client.py`,
lines 347-355). -/
def MQTTState.get_status (s : MQTTState) : MQTTStatus :=
  { connected := s.connected, reconnect_attempts := s.reconnect_attempts }

/-- Embedding of `MQTTClient._publish` (`src/mqtt_client.py`, lines 201-219):
with no transport object or while not connected it returns `False` without
submitting anything; otherwise it submits the payload once and returns
whether the transport accepted it (`result.rc == MQTT_ERR_SUCCESS`, with a
raised exception folded into `pubOk = false`; either way the submission
already happened). -/
def MQTTState.publishInternal (s : MQTTState) (ch : Channel) (pubOk : Bool) :
    Bool × List MQTTAction :=
  if !s.hasClient || !s.connected then (false, [])
  else (pubOk, [MQTTAction.publishMsg ch])

/-- Embedding of `MQTTClient.publish_sensor_data` (`src/mqtt_client.py`,
lines 143-159): an explicit not-connected guard returning `False`, then the
payload envelope is built and delegated to `_publish`. -/
def MQTTState.publish_sensor_data (s : MQTTState) (pubOk : Bool) :
    Bool × List MQTTAction :=
  if !s.connected then (false, [])
  else s.publishInternal Channel.sensor_data pubOk

/-- Embedding of `MQTTClient.publish_status` (`src/mqtt_client.py`,
lines 161-173): builds the status payload and delegates to `_publish`. -/
def MQTTState.publish_status (s : MQTTState) (pubOk : Bool) :
    Bool × List MQTTAction :=
  s.publishInternal Channel.sensor_status pubOk

/-- Embedding of `MQTTClient.publish_heartbeat` (`src/mqtt_client.py`,
lines 175-185). -/
def MQTTState.publish_heartbeat (s : MQTTState) (pubOk : Bool) :
    Bool × List MQTTAction :=
  s.publishInternal Channel.heartbeat pubOk

/-- Embedding of `MQTTClient.publish_debug` (`src/mqtt_client.py`,
lines 187-199). -/
def MQTTState.publish_debug (s : MQTTState) (pubOk : Bool) :
    Bool × List MQTTAction :=
  s.publishInternal Channel.debug pubOk

/-- Embedding of `MQTTClient.connect` (`src/mqtt_client.py`, lines 99-122):
with no transport object it returns `False` immediately; otherwise it submits
a transport connect and returns whether that call succeeded (`transportOk`
covers both a non-success return code and a raised exception).  The
`connected` flag is not touched here — only the `_on_connect` acknowledgment
callback sets it. -/
def MQTTState.connect (s : MQTTState) (transportOk : Bool) :
    Bool × MQTTState × List MQTTAction :=
  if !s.hasClient then (false, s, [])
  else (transportOk, s, [MQTTAction.connectCall])

/-- Embedding of `MQTTClient._attempt_reconnect` (`src/mqtt_client.py`,
lines 308-323): once `reconnect_attempts` has reached the maximum it returns
without any effect; otherwise it increments the counter, sleeps
`min(30, 2 ** reconnect_attempts)` seconds and submits a transport reconnect
(whose own failure is caught and ignored). -/
def MQTTState.attempt_reconnect (s : MQTTState) : MQTTState × List MQTTAction :=
  if s.reconnect_attempts ≥ s.max_reconnect_attempts then (s, [])
  else
    let n := s.reconnect_attempts + 1
    let delay := min 30 (2 ^ n)
    ({ s with reconnect_attempts := n },
     [MQTTAction.sleep delay, MQTTAction.reconnectCall])

/-- Embedding of `MQTTClient._on_disconnect` (`src/mqtt_client.py`,
lines 261-271): clears `connected`, fires the user callback (not an observed
transport effect), and enters `_attempt_reconnect` exactly when the
disconnect code is non-clean (`rc != MQTT_ERR_SUCCESS`, i.e. `rc ≠ 0`) and
the stop event is not set. -/
def MQTTState.onDisconnect (s : MQTTState) (rc : Nat) :
    MQTTState × List MQTTAction :=
  let s1 := { s with connected := false }
  if rc ≠ 0 && !s1.stop_event then s1.attempt_reconnect
  else (s1, [])

/-- Embedding of `MQTTClient._on_connect` (`src/mqtt_client.py`,
lines 239-259): on acknowledgment code 0 it sets `connected`, resets
`reconnect_attempts`, subscribes to the config topic, publishes a retained
`online` status and starts the heartbeat thread; on any other code it only
logs. -/
def MQTTState.onConnect (s : MQTTState) (rc : Nat) (pubOk : Bool) :
    MQTTState × List MQTTAction :=
  if rc = 0 then
    let s1 := { s with connected := true, reconnect_attempts := 0 }
    let pub := s1.publish_status pubOk
    (s1, MQTTAction.subscribeCall Channel.config :: pub.2)
  else (s, [])

/-- Embedding of `MQTTClient.disconnect` (`src/mqtt_client.py`,
lines 124-141): with no transport object it returns at once (the stop event
is NOT set on this path); otherwise it sets the stop event, joins the
heartbeat thread, publishes a retained `offline` status if currently
connected, stops the I/O loop and submits the transport disconnect. -/
def MQTTState.disconnect (s : MQTTState) (pubOk : Bool) :
    MQTTState × List MQTTAction :=
  if !s.hasClient then (s, [])
  else
    let s1 := { s with stop_event := true }
    let pub := if s1.connected then (s1.publish_status pubOk).2 else []
    (s1, pub ++ [MQTTAction.disconnectCall])

/-- Embedding of one pass of `MQTTClient._heartbeat_loop`
(`src/mqtt_client.py`, lines 333-341): publish a heartbeat only while
connected. -/
def MQTTState.heartbeatTick (s : MQTTState) (pubOk : Bool) :
    List MQTTAction :=
  if s.connected then (s.publish_heartbeat pubOk).2 else []

/-!
Events that occur without a manual `connect()` call.  A transport
`_on_connect` acknowledgment is not among them: paho delivers CONNACK only in
response to a `connect()`/`reconnect()` submission, so in a run with no
manual `connect()` it can only follow a `reconnectCall` effect — and the C1
theorem shows none is ever emitted from the exhausted state.
-/

/-- One spontaneous event while the client runs unattended: a transport
disconnect callback, a heartbeat timer tick, or a caller invoking one of the
publish helpers. -/
inductive AutoEvent where
  | disconnectCb (rc : Nat)
  | heartbeatTick (pubOk : Bool)
  | sensorPublish (pubOk : Bool)
  | statusPublish (pubOk : Bool)
  | debugPublish (pubOk : Bool)
deriving Repr, DecidableEq

/-- Effect of one spontaneous event on the client state, with the transport
effects it performs. -/
def autoStep (s : MQTTState) : AutoEvent → MQTTState × List MQTTAction
  | AutoEvent.disconnectCb rc => s.onDisconnect rc
  | AutoEvent.heartbeatTick pubOk => (s, s.heartbeatTick pubOk)
  | AutoEvent.sensorPublish pubOk => (s, (s.publish_sensor_data pubOk).2)
  | AutoEvent.statusPublish pubOk => (s, (s.publish_status pubOk).2)
  | AutoEvent.debugPublish pubOk => (s, (s.publish_debug pubOk).2)

/-- Run of a sequence of spontaneous events, accumulating transport
effects. -/
def autoRun (s : MQTTState) : List AutoEvent → MQTTState × List MQTTAction
  | [] => (s, [])
  | e :: es =>
    let step := autoStep s e
    let rest := autoRun step.1 es
    (rest.1, step.2 ++ rest.2)

/-!
Embedding of the concrete reader variants (`src/sensor_reader.py`).  The
mutable per-reader fields touched by `read()` are a record; hardware driver
answers and random draws are explicit inputs.
-/

/-- Mutable fields of a `SensorReader` touched by `read()`
(`src/sensor_reader.py`, lines 68-76): the cached last successful reading and
the error counter. -/
structure ReaderState where
  last_reading : Option SensorReading := none
  error_count : Nat := 0
deriving Repr, DecidableEq

/-- Answer of the DHT hardware driver for one read: the pair
`(sensor.temperature, sensor.humidity)` (either may be `None`), or a raised
exception message.  `none` at the outer level models the branch where
`self.sensor and HAS_DHT` is false (driver library absent or init failed). -/
abbrev DHTDriver := Option (Except String (Option Rat × Option Rat))

/-- Embedding of `DHT11Reader.read` (`src/sensor_reader.py`, lines 149-187).
With a live driver: both values present stores the rounded reading and caches
it as `last_reading` with the error counter reset; a `None` value or a raised
exception produces an error-tagged reading and increments the error counter.
Without a driver, the mock-data branch fills the reading from the random
draws (`round(20 + uniform(-5,10), 1)`, `round(50 + uniform(-20,30), 1)`)
and — as in the source — does not touch `last_reading` or the counter. -/
def DHT11Reader.read (sid sty : String) (st : ReaderState) (drv : DHTDriver)
    (mockT mockH : Rat) : SensorReading × ReaderState :=
  match drv with
  | some (Except.ok (some t, some h)) =>
    let r : SensorReading :=
      { sensor_id := sid, sensor_type := sty
        temperature := some (round1 t), humidity := some (round1 h) }
    (r, { last_reading := some r, error_count := 0 })
  | some (Except.ok _) =>
    ({ sensor_id := sid, sensor_type := sty
       error := some "Sensor returned None values" },
     { st with error_count := st.error_count + 1 })
  | some (Except.error e) =>
    ({ sensor_id := sid, sensor_type := sty, error := some e },
     { st with error_count := st.error_count + 1 })
  | none =>
    ({ sensor_id := sid, sensor_type := sty
       temperature := some (round1 (20 + mockT))
       humidity := some (round1 (50 + mockH)) },
     st)

/-- Embedding of `DS18B20Reader.read` (`src/sensor_reader.py`,
lines 206-233), with the same driver/mock split as `DHT11Reader.read`:
`some` carries `sensor.get_temperature()` or a raised exception, `none` is
the library-absent mock branch (which again leaves the state untouched). -/
def DS18B20Reader.read (sid : String) (st : ReaderState)
    (drv : Option (Except String Rat)) (mockT : Rat) :
    SensorReading × ReaderState :=
  match drv with
  | some (Except.ok t) =>
    let r : SensorReading :=
      { sensor_id := sid, sensor_type := "DS18B20"
        temperature := some (round2 t) }
    (r, { last_reading := some r, error_count := 0 })
  | some (Except.error e) =>
    ({ sensor_id := sid, sensor_type := "DS18B20", error := some e },
     { st with error_count := st.error_count + 1 })
  | none =>
    ({ sensor_id := sid, sensor_type := "DS18B20"
       temperature := some (round2 (20 + mockT)) },
     st)

/-- Mutable state of a `MockSensorReader` (`src/sensor_reader.py`,
lines 238-242): the base values, the accumulated drift, and the inherited
reader fields. -/
structure MockState where
  base_temp : Rat := 22
  base_humidity : Rat := 60
  drift : Rat := 0
  last_reading : Option SensorReading := none
  error_count : Nat := 0
deriving Repr, DecidableEq

/-- Embedding of `MockSensorReader.read` (`src/sensor_reader.py`,
lines 244-266).  `driftDelta`, `tJitter`, `hJitter` are the three
`random.uniform` draws; `injectError` is the 5% `random.random() < 0.05`
outcome.  On the error path the counter is incremented and `last_reading`
is left alone; otherwise the counter drops by one (floored at 0, which is
exactly `Nat` subtraction) and the reading is cached. -/
def MockSensorReader.read (sid sty : String) (st : MockState)
    (driftDelta tJitter hJitter : Rat) (injectError : Bool) :
    SensorReading × MockState :=
  let drift1 := max (-2 : Rat) (min 2 (st.drift + driftDelta))
  let r : SensorReading :=
    { sensor_id := sid, sensor_type := sty
      temperature := some (round1 (st.base_temp + drift1 + tJitter))
      humidity := some (round1 (st.base_humidity + hJitter)) }
  if injectError then
    ({ r with error := some "Simulated sensor error" },
     { st with drift := drift1, error_count := st.error_count + 1 })
  else
    (r,
     { st with drift := drift1, error_count := st.error_count - 1
               last_reading := some r })

/-- Embedding of `SensorManager.read_all` (`src/sensor_reader.py`,
lines 300-319).  `self.sensors` is a dict from sensor id to reader; its
items are modelled as an association list, and each reader's `read()` call by
its outcome: a returned reading, or a raised exception message which
`read_all` catches and converts into an error-tagged reading under the same
id. -/
def SensorManager.read_all
    (sensors : List (String × Except String SensorReading)) :
    List (String × SensorReading) :=
  sensors.map (fun p =>
    match p.2 with
    | Except.ok r => (p.1, r)
    | Except.error e =>
      (p.1, { sensor_id := p.1, error := some e }))

/-!
Embedding of the agent's poll-publish decision (`src/main.py`).
-/

/-- Embedding of the publish decision of `IoTSensorClient._main_loop`
(`src/main.py`, lines 138-159) composed with `_publish_sensor_reading`
(lines 161-173): in one poll cycle, a reading goes to
`mqtt_client.publish_sensor_data` exactly when `reading.is_valid()` holds
and the MQTT client reports connected.  `validate_reading` is not consulted
anywhere on this path — the loop body never calls it. -/
def mainLoopPublishCalls (mqttConnected : Bool)
    (readings : List (String × SensorReading)) :
    List (String × SensorReading) :=
  (readings.filter (fun p => p.2.is_valid)).filter (fun _ => mqttConnected)

/-!
Concrete instances used by counterexamples and witnesses.
-/

/-- A reading whose `error` field is set and which carries no measurements:
what `SensorManager.read_all` produces for a raising sensor, and what the
DHT read path produces on a driver failure. -/
def errReading : SensorReading :=
  { sensor_id := "sensor_001", sensor_type := "DHT11", error := some "fail" }

/-- An error-free DHT11 reading whose temperature (150 °C) exceeds the
spec's DHT11 maximum of about 50 °C. -/
def hotReading : SensorReading :=
  { sensor_id := "sensor_001", sensor_type := "DHT11"
    temperature := some 150 }

/-- A two-sensor registry snapshot where sensor `"b"` raises during
`read()`. -/
def demoSensors : List (String × Except String SensorReading) :=
  [("a", Except.ok hotReading), ("b", Except.error "boom")]

/-- A client state whose reconnect budget is exhausted: disconnected with
`reconnect_attempts` equal to `max_reconnect_attempts`. -/
def exhaustedState : MQTTState :=
  { hasClient := true
    connected := false
    reconnect_attempts := 10
    max_reconnect_attempts := 10
    stop_event := false }

/-- A connected client state before a deliberate `disconnect()`. -/
def liveState : MQTTState :=
  { hasClient := true
    connected := true
    reconnect_attempts := 2
    max_reconnect_attempts := 10
    stop_event := false }

/-!
Theorems settling the claims.
-/

/-- C5: for every `SensorReading r`, `r.is_valid()` returns true if and only
if `r.error` is `None` and at least one of `r.temperature`, `r.humidity`,
`r.pressure` is not `None`. -/
theorem C5_is_valid_iff (r : SensorReading) :
    r.is_valid = true ↔
      (r.error = none ∧
        (r.temperature ≠ none ∨ r.humidity ≠ none ∨ r.pressure ≠ none)) := by
  simp [SensorReading.is_valid, Bool.and_eq_true, Bool.or_eq_true,
    Option.isNone_iff_eq_none, Option.isSome_iff_ne_none, or_assoc]

/-- C4: `publish_sensor_data` called while the client is not connected
returns `False` and submits no message to the broker transport. -/
theorem C4_publish_sensor_data_disconnected (s : MQTTState) (pubOk : Bool)
    (h : s.connected = false) :
    s.publish_sensor_data pubOk = (false, []) := by
  simp [MQTTState.publish_sensor_data, h]

/-- Witness for C4 at a freshly constructed client. -/
theorem C4_publish_sensor_data_disconnected_witness :
    (MQTTState.init true 10).publish_sensor_data true = (false, []) :=
  C4_publish_sensor_data_disconnected (MQTTState.init true 10) true rfl

/-- C2: for reconnect attempt `n` with `1 ≤ n ≤ max_reconnect_attempts`
(pre-state counter `n - 1`), `_attempt_reconnect` sleeps exactly
`min(30, 2^n)` seconds and then issues the reconnect call. -/
theorem C2_backoff_delay (s : MQTTState) (n : Nat) (hpos : 1 ≤ n)
    (hle : n ≤ s.max_reconnect_attempts)
    (hpre : s.reconnect_attempts = n - 1) :
    s.attempt_reconnect =
      ({ s with reconnect_attempts := n },
       [MQTTAction.sleep (min 30 (2 ^ n)), MQTTAction.reconnectCall]) := by
  have hn : s.reconnect_attempts + 1 = n := by omega
  have hlt : ¬ s.reconnect_attempts ≥ s.max_reconnect_attempts := by omega
  simp [MQTTState.attempt_reconnect, hlt, hn]

/-- Witness for C2: the first reconnect attempt of a fresh client sleeps
`min(30, 2^1) = 2` seconds before the reconnect call. -/
theorem C2_backoff_delay_witness :
    (MQTTState.init true 10).attempt_reconnect =
      ({ MQTTState.init true 10 with reconnect_attempts := 1 },
       [MQTTAction.sleep (min 30 (2 ^ 1)), MQTTAction.reconnectCall]) :=
  C2_backoff_delay (MQTTState.init true 10) 1 (by decide) (by decide) rfl

/-- C3: after a deliberate `disconnect()` (which sets the stop event), a
subsequent transport disconnect callback with a non-clean code only clears
`connected`: the reconnect counter is untouched and no backoff sleep or
reconnect call is performed. -/
theorem C3_deliberate_disconnect_suppresses_reconnect (s : MQTTState)
    (pubOk : Bool) (rc : Nat) (h : s.hasClient = true) :
    (s.disconnect pubOk).1.stop_event = true ∧
    (s.disconnect pubOk).1.onDisconnect rc =
      ({ (s.disconnect pubOk).1 with connected := false }, []) := by
  simp [MQTTState.disconnect, MQTTState.onDisconnect, h]

/-- Witness for C3 at a connected client and the non-clean code `rc = 1`. -/
theorem C3_deliberate_disconnect_suppresses_reconnect_witness :
    (liveState.disconnect true).1.stop_event = true ∧
    (liveState.disconnect true).1.onDisconnect 1 =
      ({ (liveState.disconnect true).1 with connected := false }, []) :=
  C3_deliberate_disconnect_suppresses_reconnect liveState true 1 rfl

/-- C10: a client constructed while the MQTT library is unavailable (no
transport object) has `connect()` return `False` with `connected` still
false, and every publish helper returns `False`. -/
theorem C10_no_library_everything_fails (m : Nat)
    (tOk p1 p2 p3 p4 : Bool) :
    ((MQTTState.init false m).connect tOk).1 = false ∧
    ((MQTTState.init false m).connect tOk).2.1.connected = false ∧
    ((MQTTState.init false m).publish_status p1).1 = false ∧
    ((MQTTState.init false m).publish_heartbeat p2).1 = false ∧
    ((MQTTState.init false m).publish_debug p3).1 = false ∧
    ((MQTTState.init false m).publish_sensor_data p4).1 = false := by
  simp [MQTTState.init, MQTTState.connect, MQTTState.publish_status,
    MQTTState.publish_heartbeat, MQTTState.publish_debug,
    MQTTState.publish_sensor_data, MQTTState.publishInternal]

/-- Helper: in a disconnected state whose reconnect budget is exhausted,
every spontaneous event leaves the counters alone, keeps the client
disconnected, and performs no transport effect at all. -/
theorem autoStep_exhausted (s : MQTTState) (e : AutoEvent)
    (h1 : s.connected = false)
    (h2 : s.max_reconnect_attempts ≤ s.reconnect_attempts) :
    (autoStep s e).1.connected = false ∧
    (autoStep s e).1.reconnect_attempts = s.reconnect_attempts ∧
    (autoStep s e).1.max_reconnect_attempts = s.max_reconnect_attempts ∧
    (autoStep s e).2 = [] := by
  cases e <;>
    simp [autoStep, MQTTState.onDisconnect, MQTTState.attempt_reconnect,
      MQTTState.heartbeatTick, MQTTState.publish_sensor_data,
      MQTTState.publish_status, MQTTState.publish_debug,
      MQTTState.publish_heartbeat, MQTTState.publishInternal, h1, h2]

/-- C1: once the client is disconnected with `reconnect_attempts` at
`max_reconnect_attempts`, no sequence of spontaneous events (disconnect
callbacks, heartbeat ticks, publish calls) ever issues a reconnect call,
the counter stays frozen, and `get_status()` keeps reporting
`connected = false`; only a manual `connect()` (not among these events)
could change this. -/
theorem C1_exhausted_stays_disconnected (es : List AutoEvent) :
    ∀ s : MQTTState, s.connected = false →
      s.max_reconnect_attempts ≤ s.reconnect_attempts →
      MQTTAction.reconnectCall ∉ (autoRun s es).2 ∧
      ((autoRun s es).1.get_status).connected = false ∧
      (autoRun s es).1.reconnect_attempts = s.reconnect_attempts := by
  induction es with
  | nil =>
    intro s h1 _
    simp [autoRun, MQTTState.get_status, h1]
  | cons e es ih =>
    intro s h1 h2
    obtain ⟨hc, ha, hm, hacts⟩ := autoStep_exhausted s e h1 h2
    have h2' : (autoStep s e).1.max_reconnect_attempts ≤
        (autoStep s e).1.reconnect_attempts := by
      rw [hm, ha]; exact h2
    obtain ⟨i1, i2, i3⟩ := ih (autoStep s e).1 hc h2'
    refine ⟨?_, ?_, ?_⟩
    · simpa [autoRun, hacts] using i1
    · simpa [autoRun] using i2
    · simp [autoRun]
      rw [i3, ha]

/-- Witness for C1: the exhausted demo state subjected to a non-clean
disconnect callback, a heartbeat tick and a sensor publish. -/
theorem C1_exhausted_stays_disconnected_witness :
    MQTTAction.reconnectCall ∉
      (autoRun exhaustedState
        [AutoEvent.disconnectCb 1, AutoEvent.heartbeatTick true,
         AutoEvent.sensorPublish true]).2 ∧
    ((autoRun exhaustedState
        [AutoEvent.disconnectCb 1, AutoEvent.heartbeatTick true,
         AutoEvent.sensorPublish true]).1.get_status).connected = false ∧
    (autoRun exhaustedState
        [AutoEvent.disconnectCb 1, AutoEvent.heartbeatTick true,
         AutoEvent.sensorPublish true]).1.reconnect_attempts =
      exhaustedState.reconnect_attempts :=
  C1_exhausted_stays_disconnected
    [AutoEvent.disconnectCb 1, AutoEvent.heartbeatTick true,
     AutoEvent.sensorPublish true]
    exhaustedState rfl (by decide)

/-- C6 counterexample: the claim predicts `validate_reading` returns true
for any reading with no present field out of range, but on an error-tagged
reading with no measurements (no present field out of range at all) the
`is_valid` gate at the top of `validate_reading` makes it return false. -/
theorem C6_counterexample :
    validate_reading SensorType.parse specSensorRanges "DHT11" errReading
        = false ∧
    somePresentFieldOut (specSensorRanges SensorType.DHT11) errReading
        = false :=
  ⟨rfl, rfl⟩

/-- C6 amended: `validate_reading` returns true iff the reading passes
`is_valid`, its sensor-type tag parses to a known `SensorType` (an unknown
tag raises `ValueError`, caught as a `False` return), and no present numeric
field lies outside the configured range; any other reading — including
invalid readings and unknown tags with all present fields in range — is
rejected. -/
theorem C6_validate_reading_amended {SType : Type}
    (parse : String → Option SType) (table : SType → SensorRanges)
    (sty : String) (r : SensorReading) :
    validate_reading parse table sty r = true ↔
      (r.is_valid = true ∧ ∃ t, parse sty = some t ∧
        somePresentFieldOut (table t) r = false) := by
  unfold validate_reading somePresentFieldOut
  cases hv : r.is_valid with
  | false => simp [hv]
  | true =>
    simp only [hv, Bool.not_true, Bool.false_eq_true, if_false, true_and]
    cases hp : parse sty with
    | none => simp
    | some t => simp

/-- C7: in one poll cycle with the MQTT client connected, every reading that
passes `is_valid` is handed to `publish_sensor_data`, no matter what
`validate_reading` returns for it: the publish decision is exactly the
`is_valid` filter and never consults the range check. -/
theorem C7_range_check_never_gates_publish {SType : Type}
    (parse : String → Option SType) (table : SType → SensorRanges)
    (readings : List (String × SensorReading)) (p : String × SensorReading)
    (hmem : p ∈ readings) (hvalid : p.2.is_valid = true)
    (_hrange : validate_reading parse table p.2.sensor_type p.2 = false) :
    mainLoopPublishCalls true readings =
      readings.filter (fun q => q.2.is_valid) ∧
    p ∈ mainLoopPublishCalls true readings := by
  constructor
  · simp [mainLoopPublishCalls]
  · simp [mainLoopPublishCalls, List.mem_filter]
    exact ⟨hmem, hvalid⟩

/-- Witness for C7: the out-of-range reading `hotReading` (150 °C against
the DHT11 table, so `validate_reading` rejects it) is still published. -/
theorem C7_range_check_never_gates_publish_witness :
    mainLoopPublishCalls true [("sensor_001", hotReading)] =
      [("sensor_001", hotReading)].filter (fun q => q.2.is_valid) ∧
    ("sensor_001", hotReading) ∈
      mainLoopPublishCalls true [("sensor_001", hotReading)] :=
  C7_range_check_never_gates_publish SensorType.parse specSensorRanges
    [("sensor_001", hotReading)] ("sensor_001", hotReading)
    (by simp) rfl (by decide)

/-- C8: `read_all` returns exactly one entry per registered sensor id, in
registration order, and a sensor whose `read()` raises contributes an
error-tagged reading under its id instead of propagating the exception. -/
theorem C8_read_all_one_entry_per_sensor
    (sensors : List (String × Except String SensorReading)) :
    (SensorManager.read_all sensors).map Prod.fst = sensors.map Prod.fst ∧
    ∀ sid e, (sid, Except.error e) ∈ sensors →
      (sid, ({ sensor_id := sid, error := some e } : SensorReading)) ∈
        SensorManager.read_all sensors := by
  constructor
  · unfold SensorManager.read_all
    rw [List.map_map]
    apply List.map_congr_left
    intro a _
    cases a with
    | mk sid res => cases res <;> rfl
  · intro sid e hmem
    exact List.mem_map_of_mem _ hmem

/-- Witness for C8 on a two-sensor registry with one raising sensor. -/
theorem C8_read_all_one_entry_per_sensor_witness :
    (SensorManager.read_all demoSensors).map Prod.fst =
      demoSensors.map Prod.fst ∧
    ("b", ({ sensor_id := "b", error := some "boom" } : SensorReading)) ∈
      SensorManager.read_all demoSensors :=
  ⟨(C8_read_all_one_entry_per_sensor demoSensors).1,
   (C8_read_all_one_entry_per_sensor demoSensors).2 "b" "boom"
     (by simp [demoSensors])⟩

/-- C9 counterexample: with the DHT library absent (mock-data branch),
`DHT11Reader.read` yields an error-free, valid reading, yet `last_reading`
is not overwritten with it — it stays `None`, refuting "each call to read()
that yields a successful (error-free) reading overwrites the stored
last_reading". -/
theorem C9_counterexample :
    (DHT11Reader.read "sensor_001" "DHT11" {} none 0 0).1.error = none ∧
    (DHT11Reader.read "sensor_001" "DHT11" {} none 0 0).1.is_valid = true ∧
    (DHT11Reader.read "sensor_001" "DHT11" {} none 0 0).2.last_reading
      = none := by
  refine ⟨rfl, rfl, rfl⟩

/-- C9 amended: the hardware-driver branches of `DHT11Reader.read` and
`DS18B20Reader.read` overwrite `last_reading` exactly on a successful
(error-free) read and leave it unchanged on driver errors or `None` values;
`MockSensorReader.read` overwrites it exactly on non-injected-error reads;
but the library-absent mock-data branch of `DHT11Reader`/`DS18B20Reader`
returns an error-free reading WITHOUT updating `last_reading`. -/
theorem C9_last_reading_update_amended :
    (∀ sid sty st t h mT mH,
      (DHT11Reader.read sid sty st (some (Except.ok (some t, some h)))
          mT mH).2.last_reading =
        some (DHT11Reader.read sid sty st (some (Except.ok (some t, some h)))
          mT mH).1 ∧
      (DHT11Reader.read sid sty st (some (Except.ok (some t, some h)))
          mT mH).1.error = none) ∧
    (∀ sid sty st e mT mH,
      (DHT11Reader.read sid sty st (some (Except.error e))
          mT mH).2.last_reading = st.last_reading) ∧
    (∀ sid sty st oh mT mH,
      (DHT11Reader.read sid sty st (some (Except.ok (none, oh)))
          mT mH).2.last_reading = st.last_reading) ∧
    (∀ sid sty st t mT mH,
      (DHT11Reader.read sid sty st (some (Except.ok (some t, none)))
          mT mH).2.last_reading = st.last_reading) ∧
    (∀ sid sty st mT mH,
      (DHT11Reader.read sid sty st none mT mH).2.last_reading =
        st.last_reading ∧
      (DHT11Reader.read sid sty st none mT mH).1.error = none) ∧
    (∀ sid st t mT,
      (DS18B20Reader.read sid st (some (Except.ok t)) mT).2.last_reading =
        some (DS18B20Reader.read sid st (some (Except.ok t)) mT).1) ∧
    (∀ sid st e mT,
      (DS18B20Reader.read sid st (some (Except.error e)) mT).2.last_reading =
        st.last_reading) ∧
    (∀ sid st mT,
      (DS18B20Reader.read sid st none mT).2.last_reading =
        st.last_reading ∧
      (DS18B20Reader.read sid st none mT).1.error = none) ∧
    (∀ sid sty st dD tJ hJ,
      (MockSensorReader.read sid sty st dD tJ hJ false).2.last_reading =
        some (MockSensorReader.read sid sty st dD tJ hJ false).1 ∧
      (MockSensorReader.read sid sty st dD tJ hJ false).1.error = none) ∧
    (∀ sid sty st dD tJ hJ,
      (MockSensorReader.read sid sty st dD tJ hJ true).2.last_reading =
        st.last_reading) := by
  refine ⟨?_, ?_, ?_, ?_, ?_, ?_, ?_, ?_, ?_, ?_⟩ <;> intros <;>
    simp [DHT11Reader.read, DS18B20Reader.read, MockSensorReader.read]

end ClientPi
